import Mathlib

/-!
Verification of the `scrape` news-article extraction pipeline.

A shallow embedding of `src/scraper.py` (class `NewsScraper`).  HTML parse
trees (BeautifulSoup's node tree) are modelled as a mutual inductive of
element/text nodes; CSS selection (`soup.select_one`) is modelled for the
selector forms the source uses (tag, `tag.class`, `tag#id`,
`tag[attr="value"]`, and the descendant combinator `figure img`), returning
the first match in document (pre-order) order.  Python `str | None`
attribute lookups are `Option String`; Python truthiness of strings in
`a or b` chains is modelled explicitly.  `datetime.fromisoformat` /
`datetime.isoformat` and `urllib.parse.urljoin` (reached through
`requests.compat.urljoin`) are modelled on the input shapes the scraper
feeds them: four-digit-year dates, `HH[:MM[:SS[.fff[fff]]]]` times,
`±HH:MM` offsets, and http-style base URLs.  Python string helpers
(`strip`, whitespace `split`, `replace('Z', '+00:00')`, `startswith`) are
implemented directly on character lists so that every definition is
executable.  The in-place `decompose()` mutation performed by the content
extractor is modelled by explicit state passing: `extractContent` returns
the extracted text together with the mutated document, and
`scrapeArticle` threads that document into the date extractor, exactly as
the Python code does by sharing one `soup` object across the four
`_extract_*` calls.
-/

namespace Scrape

/-- Python `str.strip()` on a character list: drop whitespace from both
ends. -/
def stripChars (cs : List Char) : List Char :=
  ((cs.dropWhile Char.isWhitespace).reverse.dropWhile Char.isWhitespace).reverse

/-- Python `str.strip()`. -/
def pyStrip (s : String) : String := String.mk (stripChars s.data)

/-- Split a character list into maximal whitespace-free tokens
(Python `str.split()` with no argument), accumulating the current token
reversed in `acc`. -/
def wsTokensGo : List Char → List Char → List String
  | [], acc => if acc.isEmpty then [] else [String.mk acc.reverse]
  | c :: cs, acc =>
      if c.isWhitespace then
        if acc.isEmpty then wsTokensGo cs []
        else String.mk acc.reverse :: wsTokensGo cs []
      else wsTokensGo cs (c :: acc)

/-- The whitespace-separated tokens of a string. -/
def wsTokens (s : String) : List String := wsTokensGo s.data []

/-- Python `s.startswith(p)`. -/
def pyStartsWith (s p : String) : Bool := p.data.isPrefixOf s.data

mutual
/-- An HTML parse-tree node (BeautifulSoup tree): an element with a tag,
attributes and children, or a text node. -/
inductive Node where
  | elem (tag : String) (attrs : List (String × String)) (children : NodeList)
  | text (s : String)
deriving Repr

inductive NodeList where
  | nil
  | cons (n : Node) (ns : NodeList)
deriving Repr
end

/-- Build a `NodeList` from a `List Node` (fixture helper). -/
def nodes : List Node → NodeList
  | [] => .nil
  | n :: ns => .cons n (nodes ns)

/-- First value of an attribute key — Python's `element.get(key)`
(`None` when the attribute is absent). -/
def lookupA : List (String × String) → String → Option String
  | [], _ => none
  | (k, v) :: rest, key => if k = key then some v else lookupA rest key

/-- `element.get(key)` on a node (text nodes carry no attributes). -/
def attrOf (n : Node) (key : String) : Option String :=
  match n with
  | .elem _ attrs _ => lookupA attrs key
  | .text _ => none

/-- Does the `class` attribute, split on whitespace, contain the token
`c`?  This is how a CSS class selector matches in BeautifulSoup. -/
def hasClassToken (attrs : List (String × String)) (c : String) : Bool :=
  match lookupA attrs "class" with
  | some v => (wsTokens v).contains c
  | none => false

/-- A simple CSS selector: a tag name with optional `.class`, `#id` and
`[attr="value"]` constraints — the simple-selector forms appearing in the
scraper's selector lists. -/
structure SimpleSel where
  tag : String
  className : Option String := none
  idName : Option String := none
  attrMatch : Option (String × String) := none
deriving Repr

/-- Does node `n` match the simple selector `p`? -/
def matchesSimple (p : SimpleSel) (n : Node) : Bool :=
  match n with
  | .text _ => false
  | .elem t attrs _ =>
      t = p.tag
      && (match p.className with
          | none => true
          | some c => hasClassToken attrs c)
      && (match p.idName with
          | none => true
          | some i => lookupA attrs "id" == some i)
      && (match p.attrMatch with
          | none => true
          | some kv => lookupA attrs kv.1 == some kv.2)

/-- A selector from the scraper's selector lists: simple, or a descendant
combinator `anc tgt` (used for `"figure img"`). -/
inductive Sel where
  | simple (p : SimpleSel)
  | descendant (anc : SimpleSel) (tgt : SimpleSel)
deriving Repr

mutual
/-- First node (pre-order / document order) matching a simple selector —
`soup.select_one` for simple selectors. -/
def findSimple (p : SimpleSel) : Node → Option Node
  | .text s => if matchesSimple p (.text s) then some (.text s) else none
  | .elem t a cs =>
      if matchesSimple p (.elem t a cs) then some (.elem t a cs)
      else findSimpleL p cs
termination_by structural n => n

def findSimpleL (p : SimpleSel) : NodeList → Option Node
  | .nil => none
  | .cons c cs =>
      match findSimple p c with
      | some e => some e
      | none => findSimpleL p cs
termination_by structural l => l
end

mutual
/-- First node in document order matching `d` that has a strict ancestor
matching `a` (`under` records whether such an ancestor has been passed) —
`soup.select_one` for a descendant selector. -/
def findDesc (a d : SimpleSel) (under : Bool) : Node → Option Node
  | .text s =>
      if under && matchesSimple d (.text s) then some (.text s) else none
  | .elem t ats cs =>
      if under && matchesSimple d (.elem t ats cs) then some (.elem t ats cs)
      else findDescL a d (under || matchesSimple a (.elem t ats cs)) cs
termination_by structural n => n

def findDescL (a d : SimpleSel) (under : Bool) : NodeList → Option Node
  | .nil => none
  | .cons c cs =>
      match findDesc a d under c with
      | some e => some e
      | none => findDescL a d under cs
termination_by structural l => l
end

/-- `soup.select_one(selector)`: first match in document order. -/
def selectOne : Sel → Node → Option Node
  | .simple p, n => findSimple p n
  | .descendant a d, n => findDesc a d false n

mutual
/-- The stripped text fragments of a node in document order, skipping
fragments that strip to empty — BeautifulSoup's `_all_strings(strip=True)`,
which underlies `get_text(separator, strip=True)`. -/
def strippedStrings : Node → List String
  | .text s => if pyStrip s = "" then [] else [pyStrip s]
  | .elem _ _ cs => strippedL cs
termination_by structural n => n

def strippedL : NodeList → List String
  | .nil => []
  | .cons c cs => strippedStrings c ++ strippedL cs
termination_by structural l => l
end

/-- `element.get_text(strip=True)` (default separator `''`). -/
def getTextStrip (n : Node) : String :=
  String.intercalate "" (strippedStrings n)

/-- `element.get_text(separator=' ', strip=True)`. -/
def getTextSpace (n : Node) : String :=
  String.intercalate " " (strippedStrings n)

/-- Remove every `<script>`/`<style>` subtree from a node list —
the recursive worker behind `pruneSS`. -/
def pruneL : NodeList → NodeList
  | .nil => .nil
  | .cons (.text s) cs => .cons (.text s) (pruneL cs)
  | .cons (.elem t a gs) cs =>
      if t = "script" ∨ t = "style" then pruneL cs
      else .cons (.elem t a (pruneL gs)) (pruneL cs)
termination_by structural l => l

/-- Remove every `<script>`/`<style>` descendant subtree — the effect of
`for script in content_elem(["script", "style"]): script.decompose()` on
a node (the node itself is kept: `find_all` searches descendants only). -/
def pruneSS : Node → Node
  | .text s => .text s
  | .elem t a cs => .elem t a (pruneL cs)

/-- Stripped text fragments of a node list that do *not* lie inside a
`<script>`/`<style>` subtree — the specification-side description of the
pruning step, defined independently of `pruneL`. -/
def noSSL : NodeList → List String
  | .nil => []
  | .cons (.text s) cs =>
      (if pyStrip s = "" then [] else [pyStrip s]) ++ noSSL cs
  | .cons (.elem t _ gs) cs =>
      (if t = "script" ∨ t = "style" then [] else noSSL gs) ++ noSSL cs
termination_by structural l => l

/-- The stripped text fragments of a node that do not lie inside a
`<script>`/`<style>` descendant. -/
def noSS : Node → List String
  | .text s => if pyStrip s = "" then [] else [pyStrip s]
  | .elem _ _ cs => noSSL cs

mutual
/-- Replace the first node (document order) matching `p` by its
script/style-pruned form, flagging whether a replacement happened — the
in-place effect on the shared `soup` of decomposing the scripts/styles of
the element `select_one` picked. -/
def replPruned (p : SimpleSel) : Node → Node × Bool
  | .text s => (.text s, false)
  | .elem t a cs =>
      if matchesSimple p (.elem t a cs) then (pruneSS (.elem t a cs), true)
      else
        let r := replPrunedL p cs
        (.elem t a r.1, r.2)
termination_by structural n => n

def replPrunedL (p : SimpleSel) : NodeList → NodeList × Bool
  | .nil => (.nil, false)
  | .cons c cs =>
      let r := replPruned p c
      if r.2 then (.cons r.1 cs, true)
      else
        let rs := replPrunedL p cs
        (.cons c rs.1, rs.2)
termination_by structural l => l
end

/-- Python `a or b` for `a : str | None`, `b : str | None`: `a` when it is
truthy (non-`None` and non-empty), else `b`. -/
def pyOrO (a b : Option String) : Option String :=
  match a with
  | some s => if s = "" then b else some s
  | none => b

/-- Python `a or b` for `a : str | None`, `b : str`. -/
def pyOrStr (a : Option String) (b : String) : String :=
  match a with
  | some s => if s = "" then b else s
  | none => b

/-! ## Date parsing and serialization

A model of `datetime.fromisoformat` / `datetime.isoformat` on the shapes
the scraper feeds them: `YYYY-MM-DD`, optionally a one-character
separator and a time `HH[:MM[:SS[.fff[fff]]]]`, optionally a UTC offset
`±HH:MM`.  Out-of-range fields are rejected, as `datetime` would raise
`ValueError`. -/

/-- A parsed `datetime.datetime` value; `tzMinutes` is the UTC offset in
minutes when tz-aware (`None` for a naive datetime). -/
structure PyDateTime where
  year : Nat
  month : Nat
  day : Nat
  hour : Nat
  minute : Nat
  second : Nat
  microsecond : Nat
  tzMinutes : Option Int
deriving Repr, DecidableEq

/-- Consume exactly `n` decimal digits, returning their value. -/
def takeDigits : Nat → Nat → List Char → Option (Nat × List Char)
  | 0, acc, cs => some (acc, cs)
  | n + 1, acc, c :: cs =>
      if c.isDigit then takeDigits n (acc * 10 + (c.toNat - 48)) cs else none
  | _ + 1, _, [] => none

/-- Consume one expected character. -/
def expectC (c : Char) : List Char → Option (List Char)
  | d :: cs => if d = c then some cs else none
  | [] => none

/-- Gregorian leap year. -/
def isLeap (y : Nat) : Bool := (y % 4 = 0 && y % 100 ≠ 0) || y % 400 = 0

/-- Days in a month. -/
def daysInMonth (y m : Nat) : Nat :=
  if m = 2 then (if isLeap y then 29 else 28)
  else if m = 4 ∨ m = 6 ∨ m = 9 ∨ m = 11 then 30
  else 31

/-- Parse an ISO time `HH[:MM[:SS[.fff[fff]]]]`, returning
`(hour, minute, second, microsecond, rest)`. -/
def parseTime (cs : List Char) : Option (Nat × Nat × Nat × Nat × List Char) :=
  match takeDigits 2 0 cs with
  | none => none
  | some (h, cs1) =>
    match cs1 with
    | ':' :: cs2 =>
      match takeDigits 2 0 cs2 with
      | none => none
      | some (mi, cs3) =>
        match cs3 with
        | ':' :: cs4 =>
          match takeDigits 2 0 cs4 with
          | none => none
          | some (s, cs5) =>
            match cs5 with
            | '.' :: cs6 =>
              match takeDigits 6 0 cs6 with
              | some (us, cs7) => some (h, mi, s, us, cs7)
              | none =>
                match takeDigits 3 0 cs6 with
                | some (ms, cs7) => some (h, mi, s, ms * 1000, cs7)
                | none => none
            | _ => some (h, mi, s, 0, cs5)
        | _ => some (h, mi, 0, 0, cs3)
    | _ => some (h, 0, 0, 0, cs1)

/-- Parse an optional trailing UTC offset `±HH:MM` (the whole remaining
input must be consumed). -/
def parseTz (cs : List Char) : Option (Option Int) :=
  match cs with
  | [] => some none
  | sg :: cs1 =>
    if sg = '+' ∨ sg = '-' then
      match takeDigits 2 0 cs1 with
      | none => none
      | some (oh, cs2) =>
        match expectC ':' cs2 with
        | none => none
        | some cs3 =>
          match takeDigits 2 0 cs3 with
          | none => none
          | some (om, cs4) =>
            if cs4 = [] ∧ oh ≤ 23 ∧ om ≤ 59 then
              let mins : Int := (oh * 60 + om : Nat)
              some (some (if sg = '-' then -mins else mins))
            else none
    else none

/-- `datetime.fromisoformat` on the supported shapes (`None` models a
raised `ValueError`). -/
def fromisoformat (str : String) : Option PyDateTime :=
  match takeDigits 4 0 str.data with
  | none => none
  | some (y, cs1) =>
    match expectC '-' cs1 with
    | none => none
    | some cs2 =>
      match takeDigits 2 0 cs2 with
      | none => none
      | some (mo, cs3) =>
        match expectC '-' cs3 with
        | none => none
        | some cs4 =>
          match takeDigits 2 0 cs4 with
          | none => none
          | some (d, cs5) =>
            if 1 ≤ mo ∧ mo ≤ 12 ∧ 1 ≤ d ∧ d ≤ daysInMonth y mo then
              match cs5 with
              | [] => some ⟨y, mo, d, 0, 0, 0, 0, none⟩
              | _sep :: cs6 =>
                match parseTime cs6 with
                | none => none
                | some (h, mi, s, us, cs7) =>
                  if h ≤ 23 ∧ mi ≤ 59 ∧ s ≤ 59 then
                    match parseTz cs7 with
                    | none => none
                    | some tz => some ⟨y, mo, d, h, mi, s, us, tz⟩
                  else none
            else none

/-- Zero-pad a number to width `w`. -/
def padN (w n : Nat) : String :=
  let s := toString n
  if s.length < w then String.mk (List.replicate (w - s.length) '0') ++ s else s

/-- `datetime.isoformat()`: `YYYY-MM-DDTHH:MM:SS[.ffffff][±HH:MM]`
(microseconds printed only when non-zero, offset only when tz-aware). -/
def isoformat (d : PyDateTime) : String :=
  padN 4 d.year ++ "-" ++ padN 2 d.month ++ "-" ++ padN 2 d.day ++ "T" ++
  padN 2 d.hour ++ ":" ++ padN 2 d.minute ++ ":" ++ padN 2 d.second ++
  (if d.microsecond = 0 then "" else "." ++ padN 6 d.microsecond) ++
  (match d.tzMinutes with
   | none => ""
   | some off =>
       (if off < 0 then "-" else "+") ++
       padN 2 (off.natAbs / 60) ++ ":" ++ padN 2 (off.natAbs % 60))

/-- Python `date_str.replace('Z', '+00:00')`: every `'Z'` character is
replaced by `"+00:00"`. -/
def replaceZchars : List Char → List Char
  | [] => []
  | c :: cs =>
      if c = 'Z' then '+' :: '0' :: '0' :: ':' :: '0' :: '0' :: replaceZchars cs
      else c :: replaceZchars cs

/-- `date_str.replace('Z', '+00:00')` on strings. -/
def replaceZ (s : String) : String := String.mk (replaceZchars s.data)

/-! ## URL joining

A model of `urllib.parse.urljoin` (reached as `requests.compat.urljoin`)
for the http-style URLs the scraper passes it. -/

/-- Characters allowed in a URL scheme after the initial letter. -/
def isSchemeTail (c : Char) : Bool := c.isAlphanum || c == '+' || c == '-' || c == '.'

/-- Split off a leading `scheme:` if the prefix up to the first `':'` is a
valid scheme (first character a letter, the rest scheme characters). -/
def schemeSplitAux : List Char → List Char → Option (String × String)
  | acc, ':' :: rest => some (String.mk acc.reverse, String.mk rest)
  | acc, c :: rest =>
      if isSchemeTail c then schemeSplitAux (c :: acc) rest else none
  | _, [] => none

/-- `(scheme, rest)` of a URL, or `None` when it has no scheme. -/
def schemeSplit (s : String) : Option (String × String) :=
  match s.data with
  | c :: rest => if c.isAlpha then schemeSplitAux [c] rest else none
  | [] => none

/-- Split `"//netloc/path"` into the network location and the path. -/
def splitNetloc (cs : List Char) : Option (String × List Char) :=
  match cs with
  | '/' :: '/' :: rest =>
      let stop : Char → Bool := fun c => c == '/' || c == '?' || c == '#'
      some (String.mk (rest.takeWhile (fun c => !stop c)),
            rest.dropWhile (fun c => !stop c))
  | _ => none

/-- The base path up to and including its last `'/'` (`"/"` when the path
has none) — the directory against which a relative reference is merged. -/
def dirChars (cs : List Char) : List Char :=
  match (cs.reverse.dropWhile (fun c => !(c == '/'))).reverse with
  | [] => ['/']
  | r => r

/-- Join a scheme-relative reference `urest` against a base with scheme
`sc` and scheme-stripped remainder `brest`. -/
def joinIn (sc : String) (brest urest : String) : String :=
  if pyStartsWith urest "//" then sc ++ ":" ++ urest
  else
    match splitNetloc brest.data with
    | some (netloc, bpath) =>
        if pyStartsWith urest "/" then sc ++ "://" ++ netloc ++ urest
        else sc ++ "://" ++ netloc ++ String.mk (dirChars bpath) ++ urest
    | none => sc ++ ":" ++ urest

/-- `urllib.parse.urljoin(base, url)` on the supported shapes: an empty
`url` yields the base; a `url` whose scheme differs from the base's is
returned unchanged; otherwise the reference is resolved against the base's
network location and path. -/
def urljoin (base url : String) : String :=
  if url = "" then base
  else
    match schemeSplit url with
    | some (usc, urest) =>
        match schemeSplit base with
        | some (bsc, brest) =>
            if usc = bsc then joinIn bsc brest urest else url
        | none => url
    | none =>
        match schemeSplit base with
        | some (bsc, brest) => joinIn bsc brest url
        | none => url

/-! ## The `NewsScraper` pipeline

The selector lists below transcribe the string literals of
`_extract_title`, `_extract_image_url`, `_extract_content` and
`_extract_date` in `src/scraper.py`. -/

/-- `title_selectors = ['h1.article-title', 'h1.post-title',
'h1#main-title', 'title', 'h1']`. -/
def titleSelectors : List Sel := [
  .simple { tag := "h1", className := some "article-title" },
  .simple { tag := "h1", className := some "post-title" },
  .simple { tag := "h1", idName := some "main-title" },
  .simple { tag := "title" },
  .simple { tag := "h1" }]

/-- `image_selectors = ['meta[property="og:image"]', 'img.article-image',
'figure img', 'img.featured-image', 'img']`. -/
def imageSelectors : List Sel := [
  .simple { tag := "meta", attrMatch := some ("property", "og:image") },
  .simple { tag := "img", className := some "article-image" },
  .descendant { tag := "figure" } { tag := "img" },
  .simple { tag := "img", className := some "featured-image" },
  .simple { tag := "img" }]

/-- `content_selectors = ['div.article-body', 'div.entry-content',
'article', 'div.post-content', 'div#main-content']`. -/
def contentSelectors : List SimpleSel := [
  { tag := "div", className := some "article-body" },
  { tag := "div", className := some "entry-content" },
  { tag := "article" },
  { tag := "div", className := some "post-content" },
  { tag := "div", idName := some "main-content" }]

/-- `date_selectors = ['meta[property="article:published_time"]',
'time.published-date', 'span.post-date', 'meta[name="date"]']`. -/
def dateSelectors : List Sel := [
  .simple { tag := "meta", attrMatch := some ("property", "article:published_time") },
  .simple { tag := "time", className := some "published-date" },
  .simple { tag := "span", className := some "post-date" },
  .simple { tag := "meta", attrMatch := some ("name", "date") }]

/-- The `for selector in ...: elem = soup.select_one(selector); if elem:`
loop shape shared by the title and image extractors: the element found by
the first selector whose `select_one` succeeds. -/
def firstSelMatch : List Sel → Node → Option Node
  | [], _ => none
  | s :: rest, soup =>
      match selectOne s soup with
      | some e => some e
      | none => firstSelMatch rest soup

/-- The same loop over simple selectors, also reporting which selector
matched (the content extractor needs it to mutate the chosen element). -/
def firstSimpleSel : List SimpleSel → Node → Option (SimpleSel × Node)
  | [], _ => none
  | p :: rest, soup =>
      match findSimple p soup with
      | some e => some (p, e)
      | none => firstSimpleSel rest soup

/-- `NewsScraper._extract_title`: the trimmed text of the first
selector's match, else the `"No title found"` sentinel. -/
def extractTitle (soup : Node) : String :=
  match firstSelMatch titleSelectors soup with
  | some e => getTextStrip e
  | none => "No title found"

/-- `image_elem.get('src') or image_elem.get('data-src') or
image_elem.get('content')`. -/
def imgRawUrl (e : Node) : Option String :=
  pyOrO (attrOf e "src") (pyOrO (attrOf e "data-src") (attrOf e "content"))

/-- The body of the image loop once an element matched: take the first
truthy of `src`/`data-src`/`content`, absolutize when truthy and not
`http(s)://`-prefixed, and return it (possibly `None` or `""`). -/
def imgProcess (pageUrl : String) (e : Node) : Option String :=
  match imgRawUrl e with
  | some s =>
      if s ≠ "" ∧ ¬(pyStartsWith s "http://" ∨ pyStartsWith s "https://") then
        some (urljoin pageUrl s)
      else some s
  | none => none

/-- `NewsScraper._extract_image_url`: process the first matching
element, else the `"No image found"` sentinel.  `none` models Python
`None`. -/
def extractImageUrl (pageUrl : String) (soup : Node) : Option String :=
  match firstSelMatch imageSelectors soup with
  | some e => imgProcess pageUrl e
  | none => some "No image found"

/-- `NewsScraper._extract_content`: on the first matching container,
decompose its `script`/`style` descendants (mutating the shared soup) and
return `get_text(separator=' ', strip=True)`; the sentinel
`"No content found"` when no container matches.  The second component is
the document after the in-place mutation. -/
def extractContent (soup : Node) : String × Node :=
  match firstSimpleSel contentSelectors soup with
  | some pe => (getTextSpace (pruneSS pe.2), (replPruned pe.1 soup).1)
  | none => ("No content found", soup)

/-- `date_elem.get('content') or date_elem.get('datetime') or
date_elem.get_text(strip=True)`. -/
def candValue (e : Node) : String :=
  pyOrStr (attrOf e "content") (pyOrStr (attrOf e "datetime") (getTextStrip e))

/-- The `_extract_date` selector loop: on a match, try to parse the
candidate value (with `'Z'` normalized to `'+00:00'`); on success return
the re-serialized date, on `ValueError` fall through to the next
selector; when the list is exhausted return `datetime.now().isoformat()`,
passed in as `now`. -/
def extractDateFrom : List Sel → Node → String → String
  | [], _, now => now
  | sel :: rest, soup, now =>
      match selectOne sel soup with
      | none => extractDateFrom rest soup now
      | some e =>
          match fromisoformat (replaceZ (candValue e)) with
          | some dt => isoformat dt
          | none => extractDateFrom rest soup now

/-- `NewsScraper._extract_date`. -/
def extractDate (soup : Node) (now : String) : String :=
  extractDateFrom dateSelectors soup now

/-- The article dictionary built by `scrape_article` once the document is
parsed: the four extractor outputs plus the source URL, in the key order
of the Python dict literal.  Values are `Option String` because the image
extractor can produce Python `None`; the content extraction happens
before the date extraction and the date extractor sees the mutated
document. -/
def articleRecord (url : String) (soup : Node) (now : String) :
    List (String × Option String) :=
  let title := extractTitle soup
  let imageUrl := extractImageUrl url soup
  let contentAndDoc := extractContent soup
  let date := extractDate contentAndDoc.2 now
  [("title", some title),
   ("image_url", imageUrl),
   ("content", some contentAndDoc.1),
   ("date", some date),
   ("source_url", some url)]

/-- `NewsScraper.scrape_article`: the fetch step is modelled by its
outcome — `none` when `requests.get`/`raise_for_status` failed with a
`RequestException` (network error, timeout, non-2xx status), in which
case the method logs and returns `None`; otherwise the parsed document is
processed and the record is always assembled. -/
def scrapeArticle (url : String) (fetched : Option Node) (now : String) :
    Option (List (String × Option String)) :=
  match fetched with
  | some soup => some (articleRecord url soup now)
  | none => none

/-! ## Helper lemmas -/

/-- The stripped text of a script/style-pruned node list is exactly the
stripped text of the original list outside script/style subtrees. -/
theorem strippedL_pruneL : (cs : NodeList) → strippedL (pruneL cs) = noSSL cs
  | .nil => rfl
  | .cons (.text s) cs => by
      simp only [pruneL, strippedL, strippedStrings, noSSL, strippedL_pruneL cs]
  | .cons (.elem t a gs) cs => by
      by_cases h : t = "script" ∨ t = "style"
      · simp only [pruneL, if_pos h, noSSL, strippedL_pruneL cs, List.nil_append]
      · simp only [pruneL, if_neg h, strippedL, strippedStrings, noSSL,
          strippedL_pruneL gs, strippedL_pruneL cs]

/-- Pruning, then collecting stripped text, equals collecting stripped
text outside script/style subtrees. -/
theorem strippedStrings_pruneSS (n : Node) : strippedStrings (pruneSS n) = noSS n := by
  cases n with
  | text s => rfl
  | elem t a cs =>
      simp only [pruneSS, strippedStrings, noSS, strippedL_pruneL cs]

/-! ## Fixture documents -/

/-- A full-featured article page: og:image meta, published-time meta,
h1 headline, and an article body containing a script. -/
def docFull : Node :=
  .elem "html" [] (nodes [
    .elem "head" [] (nodes [
      .elem "title" [] (nodes [.text "Fixture Title"]),
      .elem "meta" [("property", "og:image"), ("content", "https://cdn.test/og.png")] .nil,
      .elem "meta" [("property", "article:published_time"),
                    ("content", "2023-05-01T12:00:00Z")] .nil]),
    .elem "body" [] (nodes [
      .elem "h1" [] (nodes [.text "Headline"]),
      .elem "div" [("class", "article-body")] (nodes [
        .elem "p" [] (nodes [.text " Hello "]),
        .elem "script" [] (nodes [.text "var x = 1;"]),
        .elem "p" [] (nodes [.text "World"])])])])

/-- A page with both a `<title>` element and a generic `<h1>`, and no
title-class heading. -/
def docTitleH1 : Node :=
  .elem "html" [] (nodes [
    .elem "head" [] (nodes [.elem "title" [] (nodes [.text "From Title Tag"])]),
    .elem "body" [] (nodes [.elem "h1" [] (nodes [.text "From H1"])])])

/-- A page whose highest-priority title element (`h1.article-title`) is
empty while the lower-priority `<title>` element has text. -/
def docEmptyH1 : Node :=
  .elem "html" [] (nodes [
    .elem "head" [] (nodes [.elem "title" [] (nodes [.text "Real Title"])]),
    .elem "body" [] (nodes [.elem "h1" [("class", "article-title")] .nil])])

/-- A page whose only image element carries no `src`, `data-src` or
`content` attribute. -/
def docImgNoAttrs : Node :=
  .elem "html" [] (nodes [
    .elem "body" [] (nodes [.elem "img" [("alt", "decorative")] .nil])])

/-- A page with no image, no title elements, no date elements and no
content containers. -/
def docEmptyPage : Node :=
  .elem "html" [] (nodes [
    .elem "head" [] .nil,
    .elem "body" [] (nodes [.elem "p" [] (nodes [.text "plain"])])])

/-- A page whose only image has a root-relative `src`. -/
def docRelImg : Node :=
  .elem "html" [] (nodes [
    .elem "body" [] (nodes [.elem "img" [("src", "/img/a.jpg")] .nil])])

/-- A page whose publish-time meta tag carries a `Z`-suffixed ISO-8601
date. -/
def docC8 : Node :=
  .elem "html" [] (nodes [
    .elem "head" [] (nodes [
      .elem "meta" [("property", "article:published_time"),
                    ("content", "2023-05-01T12:00:00Z")] .nil]),
    .elem "body" [] .nil])

/-- A page whose only date-candidate element (`time.published-date`) is
nested inside a `<script>` inside the first matching content container
(`div.article-body`). -/
def docC10 : Node :=
  .elem "html" [] (nodes [
    .elem "body" [] (nodes [
      .elem "div" [("class", "article-body")] (nodes [
        .elem "p" [] (nodes [.text "Visible"]),
        .elem "script" [] (nodes [
          .elem "time" [("class", "published-date"),
                        ("datetime", "2023-05-01T12:00:00Z")] .nil])])])])

/-- A page whose only date candidate (`span.post-date`) has unparseable
text. -/
def docBadDate : Node :=
  .elem "html" [] (nodes [
    .elem "body" [] (nodes [
      .elem "span" [("class", "post-date")] (nodes [.text "yesterday"])])])

/-! Equation lemmas of the model are registered with `simp` so that
concrete fixtures can be evaluated inside proofs. -/

attribute [simp] stripChars pyStrip wsTokensGo wsTokens pyStartsWith nodes lookupA
  attrOf hasClassToken matchesSimple selectOne findSimple findSimpleL findDesc
  findDescL strippedStrings strippedL getTextStrip getTextSpace pruneL pruneSS
  noSSL noSS replPruned replPrunedL pyOrO pyOrStr takeDigits expectC isLeap
  daysInMonth parseTime parseTz fromisoformat padN isoformat replaceZchars
  replaceZ isSchemeTail schemeSplitAux schemeSplit splitNetloc dirChars joinIn
  urljoin titleSelectors imageSelectors contentSelectors dateSelectors
  firstSelMatch firstSimpleSel extractTitle imgRawUrl imgProcess extractImageUrl
  extractContent candValue extractDateFrom extractDate articleRecord
  scrapeArticle docFull docTitleH1 docEmptyH1 docImgNoAttrs docEmptyPage
  docRelImg docC8 docC10 docBadDate

/-! ## Claim theorems -/

/-- Claim C1, counterexample: on a successfully fetched and parsed
document, the assembled record carries the publication date under the key
"date", not "published_at", and has no "original_url" key — the claimed
record shape `{ title, image_url, content, published_at, source_url,
original_url? }` is not what the assembler produces. -/
theorem c1_record_keys_counterexample :
    scrapeArticle "https://x.test/a" (some docFull) "2024-01-01T00:00:00"
      = some (articleRecord "https://x.test/a" docFull "2024-01-01T00:00:00")
    ∧ "published_at" ∉
        (articleRecord "https://x.test/a" docFull "2024-01-01T00:00:00").map Prod.fst
    ∧ "original_url" ∉
        (articleRecord "https://x.test/a" docFull "2024-01-01T00:00:00").map Prod.fst :=
  ⟨rfl, by decide, by decide⟩

/-- Claim C1, amended: for every successful extraction the assembled
record has exactly the fixed key set `title, image_url, content, date,
source_url` (in that order); the publication date is stored under the key
"date" and there is no `original_url` key. -/
theorem c1_record_keys_amended (url : String) (soup : Node) (now : String) :
    (articleRecord url soup now).map Prod.fst
      = ["title", "image_url", "content", "date", "source_url"] := rfl

/-- Claim C2, counterexample: on a document containing both a generic
`h1` and a `title` element and no title-class heading, the title
extractor returns the text of the `<title>` element, not the `<h1>` text
— in the source's selector list `'title'` precedes `'h1'`. -/
theorem c2_title_order_counterexample :
    extractTitle docTitleH1 = "From Title Tag"
    ∧ "From Title Tag" ≠ "From H1" := by
  constructor
  · simp; decide
  · decide

/-- Claim C2, amended: the title extractor tries its selectors in the
order title-class headings (`h1.article-title`, `h1.post-title`,
`h1#main-title`), then the document `<title>` element, then the generic
`h1` heading; on a document where no title-class heading matches and a
`<title>` element exists, the `<title>` text is returned (even when an
`h1` is present). -/
theorem c2_title_order_amended :
    (∀ (soup e : Node),
        selectOne (.simple { tag := "h1", className := some "article-title" }) soup = none →
        selectOne (.simple { tag := "h1", className := some "post-title" }) soup = none →
        selectOne (.simple { tag := "h1", idName := some "main-title" }) soup = none →
        selectOne (.simple { tag := "title" }) soup = some e →
        extractTitle soup = getTextStrip e)
    ∧ extractTitle docTitleH1 = "From Title Tag" := by
  constructor
  · intro soup e h1 h2 h3 h4
    simp only [selectOne] at h1 h2 h3 h4
    simp only [extractTitle, titleSelectors, firstSelMatch, selectOne, h1, h2, h3, h4]
  · simp; decide

/-- Witness for C2: the general priority statement applied to the
concrete both-`title`-and-`h1` fixture. -/
theorem c2_title_order_witness :
    extractTitle docTitleH1
      = getTextStrip (.elem "title" [] (nodes [.text "From Title Tag"])) :=
  c2_title_order_amended.1 docTitleH1 (.elem "title" [] (nodes [.text "From Title Tag"]))
    (by simp) (by simp) (by simp) (by simp)

/-- Claim C3, counterexample: the highest-priority title rule matches an
empty `h1.article-title` element, the extractor returns the empty string
and stops, although the lower-priority `title` selector would yield the
non-empty value "Real Title" — evaluation does not continue past a
matched rule with an empty value. -/
theorem c3_first_match_counterexample :
    extractTitle docEmptyH1 = ""
    ∧ (selectOne (.simple { tag := "title" }) docEmptyH1).map getTextStrip
        = some "Real Title" := by
  constructor
  · simp; decide
  · simp; decide

/-- Claim C3, amended: the rule lists are tried in priority order, but
evaluation stops at the first rule whose selector matches an element,
regardless of whether the extracted value is empty (or, for images,
`None`); the title, image and content extractors therefore return
whatever that first matched element yields. -/
theorem c3_first_match_amended :
    (∀ (soup e : Node),
        selectOne (.simple { tag := "h1", className := some "article-title" }) soup
          = some e →
        extractTitle soup = getTextStrip e)
    ∧ (∀ (pageUrl : String) (soup e : Node),
        selectOne (.simple { tag := "meta", attrMatch := some ("property", "og:image") }) soup
          = some e →
        extractImageUrl pageUrl soup = imgProcess pageUrl e)
    ∧ (∀ (soup e : Node),
        findSimple { tag := "div", className := some "article-body" } soup = some e →
        (extractContent soup).1 = getTextSpace (pruneSS e)) := by
  refine ⟨?_, ?_, ?_⟩
  · intro soup e h
    simp only [selectOne] at h
    simp only [extractTitle, titleSelectors, firstSelMatch, selectOne, h]
  · intro pageUrl soup e h
    simp only [selectOne] at h
    simp only [extractImageUrl, imageSelectors, firstSelMatch, selectOne, h]
  · intro soup e h
    simp only [extractContent, contentSelectors, firstSimpleSel, h]

/-- Witness for C3: the first-match-stops statement applied to the empty
`h1.article-title` fixture and to the og:image element of the full
fixture. -/
theorem c3_first_match_witness :
    extractTitle docEmptyH1 = getTextStrip (.elem "h1" [("class", "article-title")] .nil)
    ∧ extractImageUrl "https://x.test/a" docFull
        = imgProcess "https://x.test/a"
            (.elem "meta" [("property", "og:image"),
                           ("content", "https://cdn.test/og.png")] .nil)
    ∧ (extractContent docFull).1
        = getTextSpace (pruneSS (.elem "div" [("class", "article-body")] (nodes [
            .elem "p" [] (nodes [.text " Hello "]),
            .elem "script" [] (nodes [.text "var x = 1;"]),
            .elem "p" [] (nodes [.text "World"])]))) :=
  ⟨c3_first_match_amended.1 docEmptyH1 _ (by simp),
   c3_first_match_amended.2.1 "https://x.test/a" docFull _ (by simp),
   c3_first_match_amended.2.2 docFull _ (by simp)⟩

/-- Claim C4, counterexample: when the matched image element carries no
`src`, `data-src` or `content` attribute, the image extractor returns
Python `None` (modelled `none`), not the "No image found" sentinel. -/
theorem c4_image_none_counterexample :
    extractImageUrl "https://x.test/p" docImgNoAttrs = none
    ∧ (none : Option String) ≠ some "No image found" := by
  constructor
  · simp
  · decide

/-- Claim C4, amended: the image extractor returns the "No image found"
sentinel only when no selector matches any element; when an element
matches but carries no `src`, `data-src` or `content` attribute the
extractor returns `None` — so an extractor result can be a null value,
not only a non-empty value or a sentinel. -/
theorem c4_image_none_amended :
    (∀ (pageUrl : String) (soup : Node),
        firstSelMatch imageSelectors soup = none →
        extractImageUrl pageUrl soup = some "No image found")
    ∧ (∀ (pageUrl : String) (soup e : Node),
        firstSelMatch imageSelectors soup = some e →
        imgRawUrl e = none →
        extractImageUrl pageUrl soup = none) := by
  constructor
  · intro pageUrl soup h
    simp only [extractImageUrl, h]
  · intro pageUrl soup e h hr
    simp only [extractImageUrl, h, imgProcess, hr]

/-- Witness for C4: sentinel on a page with no image candidates, `none`
on the attribute-less image fixture. -/
theorem c4_image_none_witness :
    extractImageUrl "https://x.test/p" docEmptyPage = some "No image found"
    ∧ extractImageUrl "https://x.test/p" docImgNoAttrs = none :=
  ⟨c4_image_none_amended.1 "https://x.test/p" docEmptyPage (by simp),
   c4_image_none_amended.2 "https://x.test/p" docImgNoAttrs
     (.elem "img" [("alt", "decorative")] .nil) (by simp) (by decide)⟩

/-- Claim C5, confirmed: the pipeline returns a null result exactly when
the fetch step failed (`requests.RequestException`, covering network
errors, timeouts and non-2xx statuses surfaced by `raise_for_status`);
once a document is fetched and parsed, a record is always assembled — the
field extractors are total functions of the parsed document. -/
theorem c5_fetch_failure_iff_none (url : String) (fetched : Option Node) (now : String) :
    scrapeArticle url fetched now = none ↔ fetched = none := by
  cases fetched <;> simp [scrapeArticle]

/-- Claim C6, confirmed: when a content container matches, the extracted
content is the single-space concatenation of precisely the trimmed text
fragments of the container that do not lie inside a `script`/`style`
sub-element (`noSS`): the script/style subtrees are pruned before the
remaining text nodes are concatenated, so their text never leaks into
the result. -/
theorem c6_script_style_pruned (soup : Node) (p : SimpleSel) (e : Node)
    (h : firstSimpleSel contentSelectors soup = some (p, e)) :
    (extractContent soup).1 = String.intercalate " " (noSS e) := by
  simp only [extractContent, h, getTextSpace, strippedStrings_pruneSS]

/-- Witness for C6: the full fixture's article body contains a script;
the extracted content is the script-free text. -/
theorem c6_script_style_pruned_witness :
    firstSimpleSel contentSelectors docFull
      = some ({ tag := "div", className := some "article-body" },
          .elem "div" [("class", "article-body")] (nodes [
            .elem "p" [] (nodes [.text " Hello "]),
            .elem "script" [] (nodes [.text "var x = 1;"]),
            .elem "p" [] (nodes [.text "World"])]))
    ∧ (extractContent docFull).1
        = String.intercalate " " (noSS (.elem "div" [("class", "article-body")] (nodes [
            .elem "p" [] (nodes [.text " Hello "]),
            .elem "script" [] (nodes [.text "var x = 1;"]),
            .elem "p" [] (nodes [.text "World"])]))) :=
  ⟨by simp,
   c6_script_style_pruned docFull { tag := "div", className := some "article-body" }
     (.elem "div" [("class", "article-body")] (nodes [
        .elem "p" [] (nodes [.text " Hello "]),
        .elem "script" [] (nodes [.text "var x = 1;"]),
        .elem "p" [] (nodes [.text "World"])]))
     (by simp)⟩

/-- Claim C7, confirmed: a date candidate's value is the `content`
attribute when truthy, else the `datetime` attribute when truthy, else
the stripped element text; a candidate whose value fails ISO-8601 parsing
is skipped and the loop continues with the remaining selectors; and when
every selector either matches nothing or yields an unparseable value the
extractor returns the current wall-clock time `now`. -/
theorem c7_date_pipeline :
    (∀ (e : Node) (v : String),
        attrOf e "content" = some v → v ≠ "" → candValue e = v)
    ∧ (∀ (e : Node) (v : String),
        (attrOf e "content" = none ∨ attrOf e "content" = some "") →
        attrOf e "datetime" = some v → v ≠ "" → candValue e = v)
    ∧ (∀ (e : Node),
        (attrOf e "content" = none ∨ attrOf e "content" = some "") →
        (attrOf e "datetime" = none ∨ attrOf e "datetime" = some "") →
        candValue e = getTextStrip e)
    ∧ (∀ (sel : Sel) (rest : List Sel) (soup e : Node) (now : String),
        selectOne sel soup = some e →
        fromisoformat (replaceZ (candValue e)) = none →
        extractDateFrom (sel :: rest) soup now = extractDateFrom rest soup now)
    ∧ (∀ (sels : List Sel) (soup : Node) (now : String),
        (∀ sel ∈ sels, ∀ e, selectOne sel soup = some e →
            fromisoformat (replaceZ (candValue e)) = none) →
        extractDateFrom sels soup now = now) := by
  refine ⟨?_, ?_, ?_, ?_, ?_⟩
  · intro e v h hv
    simp only [candValue, pyOrStr, h, if_neg hv]
  · intro e v hc hd hv
    rcases hc with hc | hc <;> (rw [candValue, hc, hd]; simp [pyOrStr, hv])
  · intro e hc hd
    rcases hc with hc | hc <;> rcases hd with hd | hd <;>
      (rw [candValue, hc, hd]; simp [pyOrStr])
  · intro sel rest soup e now h hp
    simp only [extractDateFrom, h, hp]
  · intro sels soup now hall
    induction sels with
    | nil => rfl
    | cons sel rest ih =>
        cases hsel : selectOne sel soup with
        | none =>
            simp only [extractDateFrom, hsel]
            exact ih fun s hs e he => hall s (List.mem_cons_of_mem _ hs) e he
        | some e =>
            simp only [extractDateFrom, hsel,
              hall sel (List.mem_cons_self _ _) e hsel]
            exact ih fun s hs e2 he => hall s (List.mem_cons_of_mem _ hs) e2 he

/-- Witness for C7: the value-priority clauses at concrete elements, the
skip clause at the unparseable `span.post-date` fixture, and the
wall-clock default on a page with no date candidates. -/
theorem c7_date_pipeline_witness :
    candValue (.elem "meta" [("content", "2023-05-01")] .nil) = "2023-05-01"
    ∧ candValue (.elem "time" [("datetime", "2023-05-02")] .nil) = "2023-05-02"
    ∧ candValue (.elem "span" [] (nodes [.text " May Day "]))
        = getTextStrip (.elem "span" [] (nodes [.text " May Day "]))
    ∧ extractDateFrom
        [.simple { tag := "span", className := some "post-date" },
         .simple { tag := "meta", attrMatch := some ("name", "date") }]
        docBadDate "2024-01-01T00:00:00"
        = extractDateFrom [.simple { tag := "meta", attrMatch := some ("name", "date") }]
            docBadDate "2024-01-01T00:00:00"
    ∧ extractDateFrom dateSelectors docEmptyPage "2024-01-01T00:00:00"
        = "2024-01-01T00:00:00" := by
  refine ⟨?_, ?_, ?_, ?_, ?_⟩
  · exact c7_date_pipeline.1 _ "2023-05-01" (by decide) (by decide)
  · exact c7_date_pipeline.2.1 _ "2023-05-02" (Or.inl (by decide)) (by decide) (by decide)
  · exact c7_date_pipeline.2.2.1 _ (Or.inl (by decide)) (Or.inl (by decide))
  · exact c7_date_pipeline.2.2.2.1 _ _ docBadDate
      (.elem "span" [("class", "post-date")] (nodes [.text "yesterday"]))
      _ (by simp) (by simp)
  · refine c7_date_pipeline.2.2.2.2 dateSelectors docEmptyPage _ ?_
    intro sel hs e he
    simp only [dateSelectors, List.mem_cons, List.not_mem_nil, or_false] at hs
    rcases hs with rfl | rfl | rfl | rfl <;> simp at he

/-- Claim C8, confirmed: a date candidate whose extracted value is
"2023-05-01T12:00:00Z" produces the normalized string
"2023-05-01T12:00:00+00:00" — the trailing Z is replaced by an explicit
+00:00 offset and the parsed date is re-serialized in ISO-8601. -/
theorem c8_z_normalization :
    (fromisoformat (replaceZ "2023-05-01T12:00:00Z")).map isoformat
      = some "2023-05-01T12:00:00+00:00"
    ∧ extractDate docC8 "2024-01-01T00:00:00" = "2023-05-01T12:00:00+00:00" := by
  constructor
  · decide
  · simp; decide

/-- Claim C9, confirmed: when the chosen image element's first truthy URL
attribute is non-empty and not `http(s)://`-prefixed, the extractor
returns `urljoin(page_url, url)`; and the relative source "/img/a.jpg" on
the page "https://x.test/news/1" resolves to "https://x.test/img/a.jpg". -/
theorem c9_relative_url_resolution :
    (∀ (pageUrl : String) (soup e : Node) (u : String),
        firstSelMatch imageSelectors soup = some e →
        imgRawUrl e = some u → u ≠ "" →
        ¬(pyStartsWith u "http://" ∨ pyStartsWith u "https://") →
        extractImageUrl pageUrl soup = some (urljoin pageUrl u))
    ∧ urljoin "https://x.test/news/1" "/img/a.jpg" = "https://x.test/img/a.jpg" := by
  constructor
  · intro pageUrl soup e u h hr hu hs
    simp only [extractImageUrl, h, imgProcess, hr]
    rw [if_pos ⟨hu, hs⟩]
  · decide

/-- Witness for C9: the root-relative image source on the concrete
fixture page resolves to the absolute URL. -/
theorem c9_relative_url_witness :
    extractImageUrl "https://x.test/news/1" docRelImg = some "https://x.test/img/a.jpg" := by
  have h := c9_relative_url_resolution.1 "https://x.test/news/1" docRelImg
      (.elem "img" [("src", "/img/a.jpg")] .nil) "/img/a.jpg"
      (by simp) (by decide) (by decide) (by decide)
  rw [h, c9_relative_url_resolution.2]

/-- Claim C10, confirmed: the record's date field is computed from the
document as mutated by the content extractor (conjunct 1, the pipeline
order of `scrape_article`); on a fixture whose only `time.published-date`
element sits inside a `<script>` inside the first matching content
container, the date extractor finds it before the mutation (conjunct 2)
but the assembled record falls back to the wall-clock `now` because
content extraction decomposed the script subtree first (conjunct 3). -/
theorem c10_mutation_hides_date :
    (∀ (url : String) (soup : Node) (now : String),
        (articleRecord url soup now).lookup "date"
          = some (some (extractDate (extractContent soup).2 now)))
    ∧ extractDate docC10 "2024-06-01T00:00:00" = "2023-05-01T12:00:00+00:00"
    ∧ (articleRecord "https://x.test/a" docC10 "2024-06-01T00:00:00").lookup "date"
        = some (some "2024-06-01T00:00:00") := by
  refine ⟨fun url soup now => rfl, ?_, ?_⟩
  · simp; decide
  · show some (some (extractDate (extractContent docC10).2 "2024-06-01T00:00:00"))
        = some (some "2024-06-01T00:00:00")
    simp

end Scrape

